import Mathlib

/-!
# Verification of the mortgage-calculator numeric core

Shallow embedding of the numeric core of the `mortgage-calculator-demo`
repository.  JavaScript numbers are modelled exactly: a finite value is a
rational (`ℚ`), and the three non-finite values (`Infinity`, `-Infinity`,
`NaN`) are separate constructors, since the code only inspects them through
`Number.isFinite`.  `Math.round x` is `round x = ⌊x + 1/2⌋` (both round
half-up), `Math.ceil` is `Int.ceil`, `Math.max`/`Math.min` are `max`/`min`.

Each calculator file carries its own textual copy of the amortization
helper; the copies are embedded separately, one namespace per source file,
so that their agreement is a theorem rather than an artifact of sharing.
-/

/-- A JavaScript `number` as consumed by the calculators: a finite value
(modelled exactly as a rational) or one of the non-finite values
`Infinity`, `-Infinity`, `NaN`.  The calculators only branch on
non-finiteness via `Number.isFinite`, under which the three non-finite
values behave identically. -/
inductive JsNum where
  | fin (x : ℚ)
  | posInf
  | negInf
  | nan
deriving DecidableEq

namespace PurchaseCalculator

/-- `clampNonNegative` from `src/components/PurchaseCalculator.tsx`:
`Number.isFinite(n) ? Math.max(0, n) : 0`. -/
def clampNonNegative : JsNum → ℚ
  | .fin x => max 0 x
  | _ => 0

/-- `calculateMonthlyPrincipalAndInterest` from
`src/components/PurchaseCalculator.tsx` (lines 32-49). -/
def calculateMonthlyPrincipalAndInterest
    (principal annualRatePercent termYears : JsNum) : ℚ :=
  let P := clampNonNegative principal
  let years := clampNonNegative termYears
  let n : ℤ := round (years * 12)
  if P = 0 ∨ n = 0 then 0
  else
    let annualRate := clampNonNegative annualRatePercent / 100
    let r := annualRate / 12
    if r = 0 then P / (n : ℚ)
    else
      let pow := (1 + r) ^ n.toNat
      P * r * pow / (pow - 1)

theorem calculateMonthlyPrincipalAndInterest_eq (p a t : JsNum) :
    calculateMonthlyPrincipalAndInterest p a t =
      if clampNonNegative p = 0 ∨ round (clampNonNegative t * 12) = (0 : ℤ) then 0
      else if clampNonNegative a / 100 / 12 = 0 then
        clampNonNegative p / ((round (clampNonNegative t * 12) : ℤ) : ℚ)
      else
        clampNonNegative p * (clampNonNegative a / 100 / 12) *
            (1 + clampNonNegative a / 100 / 12) ^ (round (clampNonNegative t * 12)).toNat /
          ((1 + clampNonNegative a / 100 / 12) ^ (round (clampNonNegative t * 12)).toNat - 1) :=
  rfl

theorem clampNonNegative_nonneg (x : JsNum) : 0 ≤ clampNonNegative x := by
  cases x with
  | fin q => exact le_max_left 0 q
  | posInf => exact le_refl 0
  | negInf => exact le_refl 0
  | nan => exact le_refl 0

theorem round_clamp_nonneg (t : JsNum) : (0 : ℤ) ≤ round (clampNonNegative t * 12) := by
  rw [round_eq, Int.le_floor]
  have h : (0 : ℚ) ≤ clampNonNegative t * 12 :=
    mul_nonneg (clampNonNegative_nonneg t) (by norm_num)
  push_cast
  linarith

/-- C1: the monthly payment function clamps `principal` and `termYears` to
`max(0,x)` (non-finite treated as 0), computes `n = round(termYears*12)`,
returns 0 if the clamped principal is 0 or `n` is 0, returns `principal/n`
when the clamped monthly rate `r = (annualRatePercent/100)/12` is 0, and
otherwise returns `principal * r * (1+r)^n / ((1+r)^n - 1)`. -/
theorem purchase_payment_formula_cases (p a t : JsNum) :
    (clampNonNegative p = 0 ∨ round (clampNonNegative t * 12) = (0 : ℤ) →
        calculateMonthlyPrincipalAndInterest p a t = 0) ∧
    (clampNonNegative p ≠ 0 → round (clampNonNegative t * 12) ≠ (0 : ℤ) →
        clampNonNegative a / 100 / 12 = 0 →
        calculateMonthlyPrincipalAndInterest p a t =
          clampNonNegative p / ((round (clampNonNegative t * 12) : ℤ) : ℚ)) ∧
    (clampNonNegative p ≠ 0 → round (clampNonNegative t * 12) ≠ (0 : ℤ) →
        clampNonNegative a / 100 / 12 ≠ 0 →
        calculateMonthlyPrincipalAndInterest p a t =
          clampNonNegative p * (clampNonNegative a / 100 / 12) *
              (1 + clampNonNegative a / 100 / 12) ^ (round (clampNonNegative t * 12)).toNat /
            ((1 + clampNonNegative a / 100 / 12) ^ (round (clampNonNegative t * 12)).toNat - 1)) ∧
    (∀ x : ℚ, clampNonNegative (JsNum.fin x) = max 0 x) ∧
    clampNonNegative JsNum.posInf = 0 ∧ clampNonNegative JsNum.negInf = 0 ∧
    clampNonNegative JsNum.nan = 0 := by
  refine ⟨?_, ?_, ?_, fun x => rfl, rfl, rfl, rfl⟩
  · intro h
    rw [calculateMonthlyPrincipalAndInterest_eq, if_pos h]
  · intro hP hn hr
    rw [calculateMonthlyPrincipalAndInterest_eq, if_neg (not_or.mpr ⟨hP, hn⟩), if_pos hr]
  · intro hP hn hr
    rw [calculateMonthlyPrincipalAndInterest_eq, if_neg (not_or.mpr ⟨hP, hn⟩), if_neg hr]

/-- Witness for `purchase_payment_formula_cases`: a $1200 loan at 12% for one
year falls in the annuity branch. -/
theorem purchase_payment_formula_cases_witness :
    clampNonNegative (JsNum.fin 1200) ≠ 0 ∧
    round (clampNonNegative (JsNum.fin 1) * 12) ≠ (0 : ℤ) ∧
    clampNonNegative (JsNum.fin 12) / 100 / 12 ≠ 0 ∧
    calculateMonthlyPrincipalAndInterest (JsNum.fin 1200) (JsNum.fin 12) (JsNum.fin 1) =
      clampNonNegative (JsNum.fin 1200) * (clampNonNegative (JsNum.fin 12) / 100 / 12) *
          (1 + clampNonNegative (JsNum.fin 12) / 100 / 12) ^
            (round (clampNonNegative (JsNum.fin 1) * 12)).toNat /
        ((1 + clampNonNegative (JsNum.fin 12) / 100 / 12) ^
            (round (clampNonNegative (JsNum.fin 1) * 12)).toNat - 1) :=
  ⟨by norm_num [clampNonNegative], by norm_num [clampNonNegative],
    by norm_num [clampNonNegative],
    (purchase_payment_formula_cases (JsNum.fin 1200) (JsNum.fin 12) (JsNum.fin 1)).2.2.1
      (by norm_num [clampNonNegative]) (by norm_num [clampNonNegative])
      (by norm_num [clampNonNegative])⟩

/-- C2: the monthly payment function is total and fail-soft: the result is
always non-negative, the annuity divisor `(1+r)^n - 1` is nonzero whenever
that branch is taken (`r ≠ 0` and `n ≠ 0`), and a negative value in any of
the three arguments yields the same result as 0 in that argument. -/
theorem purchase_payment_total_nonneg (p a t : JsNum) :
    0 ≤ calculateMonthlyPrincipalAndInterest p a t ∧
    (clampNonNegative a / 100 / 12 ≠ 0 → round (clampNonNegative t * 12) ≠ (0 : ℤ) →
        (1 + clampNonNegative a / 100 / 12) ^ (round (clampNonNegative t * 12)).toNat - 1 ≠ 0) ∧
    (∀ x : ℚ, x ≤ 0 → calculateMonthlyPrincipalAndInterest (JsNum.fin x) a t =
        calculateMonthlyPrincipalAndInterest (JsNum.fin 0) a t) ∧
    (∀ x : ℚ, x ≤ 0 → calculateMonthlyPrincipalAndInterest p (JsNum.fin x) t =
        calculateMonthlyPrincipalAndInterest p (JsNum.fin 0) t) ∧
    (∀ x : ℚ, x ≤ 0 → calculateMonthlyPrincipalAndInterest p a (JsNum.fin x) =
        calculateMonthlyPrincipalAndInterest p a (JsNum.fin 0)) := by
  have hr0 : (0 : ℚ) ≤ clampNonNegative a / 100 / 12 := by
    have := clampNonNegative_nonneg a
    positivity
  have hdiv : clampNonNegative a / 100 / 12 ≠ 0 → round (clampNonNegative t * 12) ≠ (0 : ℤ) →
      (1 + clampNonNegative a / 100 / 12) ^ (round (clampNonNegative t * 12)).toNat - 1 ≠ 0 := by
    intro hr hn
    have hrpos : 0 < clampNonNegative a / 100 / 12 := lt_of_le_of_ne hr0 (Ne.symm hr)
    have hk : (round (clampNonNegative t * 12)).toNat ≠ 0 := by
      intro hk0
      exact hn (le_antisymm (Int.toNat_eq_zero.mp hk0) (round_clamp_nonneg t))
    have hpow : 1 < (1 + clampNonNegative a / 100 / 12) ^ (round (clampNonNegative t * 12)).toNat :=
      one_lt_pow₀ (by linarith) hk
    intro habs
    have : (1 + clampNonNegative a / 100 / 12) ^ (round (clampNonNegative t * 12)).toNat = 1 := by
      linarith [sub_eq_zero.mp habs]
    linarith
  have hclamp0 : ∀ x : ℚ, x ≤ 0 → clampNonNegative (JsNum.fin x) = clampNonNegative (JsNum.fin 0) := by
    intro x hx
    show max 0 x = max 0 0
    rw [max_eq_left hx, max_self]
  refine ⟨?_, hdiv, ?_, ?_, ?_⟩
  · rw [calculateMonthlyPrincipalAndInterest_eq]
    split_ifs with h1 h2
    · exact le_refl 0
    · refine div_nonneg (clampNonNegative_nonneg p) ?_
      exact_mod_cast round_clamp_nonneg t
    · have hn : round (clampNonNegative t * 12) ≠ (0 : ℤ) := fun h => h1 (Or.inr h)
      have hne := hdiv h2 hn
      have hrpos : 0 < clampNonNegative a / 100 / 12 := lt_of_le_of_ne hr0 (Ne.symm h2)
      have hk : (round (clampNonNegative t * 12)).toNat ≠ 0 := by
        intro hk0
        exact hn (le_antisymm (Int.toNat_eq_zero.mp hk0) (round_clamp_nonneg t))
      have hpow : 1 < (1 + clampNonNegative a / 100 / 12) ^
          (round (clampNonNegative t * 12)).toNat :=
        one_lt_pow₀ (by linarith) hk
      refine div_nonneg ?_ (by linarith)
      exact mul_nonneg (mul_nonneg (clampNonNegative_nonneg p) hr0) (by linarith)
  · intro x hx
    rw [calculateMonthlyPrincipalAndInterest_eq, calculateMonthlyPrincipalAndInterest_eq,
      hclamp0 x hx]
  · intro x hx
    rw [calculateMonthlyPrincipalAndInterest_eq, calculateMonthlyPrincipalAndInterest_eq,
      hclamp0 x hx]
  · intro x hx
    rw [calculateMonthlyPrincipalAndInterest_eq, calculateMonthlyPrincipalAndInterest_eq,
      hclamp0 x hx]

/-- Witness for `purchase_payment_total_nonneg`: a negative principal yields
the same (zero) payment as a zero principal. -/
theorem purchase_payment_total_nonneg_witness :
    ((-5 : ℚ) ≤ 0) ∧
    calculateMonthlyPrincipalAndInterest (JsNum.fin (-5)) (JsNum.fin 6) (JsNum.fin 30) =
      calculateMonthlyPrincipalAndInterest (JsNum.fin 0) (JsNum.fin 6) (JsNum.fin 30) :=
  ⟨by norm_num,
    (purchase_payment_total_nonneg (JsNum.fin (-5)) (JsNum.fin 6) (JsNum.fin 30)).2.2.1
      (-5) (by norm_num)⟩

/-- C8: at a zero interest rate, the payment is the principal divided by the
rounded number of periods (`ℚ` division, under which division by a zero
period count and a zero numerator agree with the code's 0 result). -/
theorem zero_rate_straight_line (p t : ℚ) (hp : 0 ≤ p) (ht : 0 < t) :
    calculateMonthlyPrincipalAndInterest (JsNum.fin p) (JsNum.fin 0) (JsNum.fin t) =
      p / ((round (t * 12) : ℤ) : ℚ) := by
  have hcp : clampNonNegative (JsNum.fin p) = p := max_eq_right hp
  have hct : clampNonNegative (JsNum.fin t) = t := max_eq_right ht.le
  have hca : clampNonNegative (JsNum.fin 0) = 0 := max_self 0
  rw [calculateMonthlyPrincipalAndInterest_eq, hcp, hct, hca]
  by_cases h1 : p = 0 ∨ round (t * 12) = (0 : ℤ)
  · rw [if_pos h1]
    rcases h1 with h1 | h1
    · rw [h1, zero_div]
    · rw [h1]
      norm_num
  · rw [if_neg h1, if_pos (by norm_num)]

/-- Witness for `zero_rate_straight_line`: $1200 over one year at 0% is $100
per month. -/
theorem zero_rate_straight_line_witness :
    (0 : ℚ) ≤ 1200 ∧ (0 : ℚ) < 1 ∧
    calculateMonthlyPrincipalAndInterest (JsNum.fin 1200) (JsNum.fin 0) (JsNum.fin 1) =
      (1200 : ℚ) / ((round ((1 : ℚ) * 12) : ℤ) : ℚ) :=
  ⟨by norm_num, by norm_num, zero_rate_straight_line 1200 1 (by norm_num) (by norm_num)⟩

end PurchaseCalculator

namespace CashOutCalculator

/-- `clampNonNegative` from `src/components/CashOutCalculator.tsx` (an
identical per-file copy). -/
def clampNonNegative : JsNum → ℚ
  | .fin x => max 0 x
  | _ => 0

/-- `calculateMonthlyPrincipalAndInterest` from
`src/components/CashOutCalculator.tsx` (lines 18-35), the file's own copy. -/
def calculateMonthlyPrincipalAndInterest
    (principal annualRatePercent termYears : JsNum) : ℚ :=
  let P := clampNonNegative principal
  let years := clampNonNegative termYears
  let n : ℤ := round (years * 12)
  if P = 0 ∨ n = 0 then 0
  else
    let annualRate := clampNonNegative annualRatePercent / 100
    let r := annualRate / 12
    if r = 0 then P / (n : ℚ)
    else
      let pow := (1 + r) ^ n.toNat
      P * r * pow / (pow - 1)

/-- `DEFAULT_TERM_YEARS` constant of the `CashOutCalculator` component. -/
def DEFAULT_TERM_YEARS : ℚ := 30

/-- `MAX_LTV` constant of the `CashOutCalculator` component. -/
def MAX_LTV : ℚ := 0.8

/-- The outputs computed by the `useMemo` block of `CashOutCalculator`
(lines 131-154). -/
structure Results where
  maxLoanAllowed : ℚ
  maxCashOutAllowed : ℚ
  adjustedCashOut : ℚ
  newLoanAmount : ℚ
  newMonthlyPayment : ℚ
  ltvPercent : ℚ
  wasCapped : Bool
deriving DecidableEq

/-- The `useMemo` computation of `CashOutCalculator` (lines 131-154).  The
presentation layer around it is out of scope. -/
def results (currentHomeValue existingMortgageBalance desiredCashOutAmount
    newInterestRate : JsNum) : Results :=
  let homeValue := clampNonNegative currentHomeValue
  let existing := clampNonNegative existingMortgageBalance
  let desired := clampNonNegative desiredCashOutAmount
  let maxLoan := homeValue * MAX_LTV
  let maxCashOut := max 0 (maxLoan - existing)
  let cashOut := min desired maxCashOut
  let loan := existing + cashOut
  let payment :=
    calculateMonthlyPrincipalAndInterest (.fin loan) newInterestRate (.fin DEFAULT_TERM_YEARS)
  let ltv := if 0 < homeValue then loan / homeValue * 100 else 0
  ⟨maxLoan, maxCashOut, cashOut, loan, payment, ltv, decide (maxCashOut < desired)⟩

/-- C5: with `maxLoan = homeValue * 0.80` and
`maxCashOut = max(0, maxLoan - existingBalance)` over the clamped inputs:
if the (clamped) desired cash-out is at most `maxCashOut` then `wasCapped`
is false and `adjustedCashOut` is the desired amount, otherwise
`adjustedCashOut = maxCashOut` and `wasCapped` is true; the new loan amount
is always `existingBalance + adjustedCashOut`. -/
theorem cashout_capping (hv eb dc rate : JsNum) :
    (clampNonNegative dc ≤
        max 0 (clampNonNegative hv * MAX_LTV - clampNonNegative eb) →
      (results hv eb dc rate).wasCapped = false ∧
        (results hv eb dc rate).adjustedCashOut = clampNonNegative dc) ∧
    (max 0 (clampNonNegative hv * MAX_LTV - clampNonNegative eb) <
        clampNonNegative dc →
      (results hv eb dc rate).adjustedCashOut =
          max 0 (clampNonNegative hv * MAX_LTV - clampNonNegative eb) ∧
        (results hv eb dc rate).wasCapped = true) ∧
    (results hv eb dc rate).newLoanAmount =
      clampNonNegative eb + (results hv eb dc rate).adjustedCashOut := by
  refine ⟨?_, ?_, rfl⟩
  · intro h
    constructor
    · show decide _ = false
      simpa using not_lt.mpr h
    · show min _ _ = _
      exact min_eq_left h
  · intro h
    constructor
    · show min _ _ = _
      exact min_eq_right h.le
    · show decide _ = true
      simpa using h

/-- Witness for `cashout_capping`: a $500k home with $250k balance caps a
$200k desired cash-out at $150k. -/
theorem cashout_capping_witness :
    max 0 (clampNonNegative (JsNum.fin 500000) * MAX_LTV -
        clampNonNegative (JsNum.fin 250000)) <
      clampNonNegative (JsNum.fin 200000) ∧
    (results (JsNum.fin 500000) (JsNum.fin 250000) (JsNum.fin 200000)
          (JsNum.fin 6.75)).adjustedCashOut =
        max 0 (clampNonNegative (JsNum.fin 500000) * MAX_LTV -
          clampNonNegative (JsNum.fin 250000)) ∧
      (results (JsNum.fin 500000) (JsNum.fin 250000) (JsNum.fin 200000)
          (JsNum.fin 6.75)).wasCapped = true :=
  ⟨by norm_num [clampNonNegative, MAX_LTV],
    (cashout_capping (JsNum.fin 500000) (JsNum.fin 250000) (JsNum.fin 200000)
        (JsNum.fin 6.75)).2.1
      (by norm_num [clampNonNegative, MAX_LTV])⟩

/-- C10: the reported LTV percentage is guarded against division by zero:
it is 0 when the clamped home value is 0, and equals
`newLoanAmount / homeValue * 100` whenever the clamped home value is
positive (so the division is always well-defined). -/
theorem cashout_ltv_guard (hv eb dc rate : JsNum) :
    (clampNonNegative hv = 0 → (results hv eb dc rate).ltvPercent = 0) ∧
    (0 < clampNonNegative hv →
      (results hv eb dc rate).ltvPercent =
        (results hv eb dc rate).newLoanAmount / clampNonNegative hv * 100) := by
  constructor
  · intro h
    show (if 0 < clampNonNegative hv then _ else 0) = 0
    rw [if_neg (by rw [h]; exact lt_irrefl 0)]
  · intro h
    show (if 0 < clampNonNegative hv then _ else 0) = _
    rw [if_pos h]
    rfl

/-- Witness for `cashout_ltv_guard`: at a positive home value the guard takes
the division branch. -/
theorem cashout_ltv_guard_witness :
    0 < clampNonNegative (JsNum.fin 500000) ∧
    (results (JsNum.fin 500000) (JsNum.fin 250000) (JsNum.fin 50000)
        (JsNum.fin 6.75)).ltvPercent =
      (results (JsNum.fin 500000) (JsNum.fin 250000) (JsNum.fin 50000)
          (JsNum.fin 6.75)).newLoanAmount /
        clampNonNegative (JsNum.fin 500000) * 100 :=
  ⟨by norm_num [clampNonNegative],
    (cashout_ltv_guard (JsNum.fin 500000) (JsNum.fin 250000) (JsNum.fin 50000)
        (JsNum.fin 6.75)).2
      (by norm_num [clampNonNegative])⟩

end CashOutCalculator

namespace RefinanceCalculator

/-- `clampNonNegative` from `RefinanceCalculator.tsx` (an identical
per-file copy). -/
def clampNonNegative : JsNum → ℚ
  | .fin x => max 0 x
  | _ => 0

/-- `calculateMonthlyPrincipalAndInterest` from `RefinanceCalculator.tsx`,
the file's own copy. -/
def calculateMonthlyPrincipalAndInterest
    (principal annualRatePercent termYears : JsNum) : ℚ :=
  let P := clampNonNegative principal
  let years := clampNonNegative termYears
  let n : ℤ := round (years * 12)
  if P = 0 ∨ n = 0 then 0
  else
    let annualRate := clampNonNegative annualRatePercent / 100
    let r := annualRate / 12
    if r = 0 then P / (n : ℚ)
    else
      let pow := (1 + r) ^ n.toNat
      P * r * pow / (pow - 1)

/-- The outputs computed by the `useMemo` block of `RefinanceCalculator`.
The code represents "break-even not applicable" as `Infinity`; the embedding
uses `Option ℤ` with `none` for that non-finite sentinel, so that a month
count is always distinguishable from the sentinel. -/
structure Results where
  oldMonthlyPayment : ℚ
  newMonthlyPayment : ℚ
  monthlySavings : ℚ
  breakEvenMonths : Option ℤ
deriving DecidableEq

/-- The `useMemo` computation of `RefinanceCalculator`: both payments use
the shared balance and the same `newTermYears`; break-even months are
`Math.ceil(closingCosts / savings)` when savings are positive and the
`Infinity` sentinel (`none`) otherwise. -/
def results (originalLoanBalance currentRate newRate newTermYears
    closingCosts : JsNum) : Results :=
  let oldPay := calculateMonthlyPrincipalAndInterest originalLoanBalance currentRate newTermYears
  let newPay := calculateMonthlyPrincipalAndInterest originalLoanBalance newRate newTermYears
  let savings := oldPay - newPay
  let months : Option ℤ :=
    if 0 < savings then some ⌈clampNonNegative closingCosts / savings⌉ else none
  ⟨oldPay, newPay, savings, months⟩

/-- C6: old and new payments are computed over the same term,
`monthlySavings = oldPayment - newPayment`, and `breakEvenMonths` is
`ceil(clampedClosingCosts / monthlySavings)` exactly when the savings are
positive and the non-finite sentinel (`none`, the code's `Infinity`)
whenever the savings are non-positive. -/
theorem refinance_break_even (b cr nr t cc : JsNum) :
    (results b cr nr t cc).oldMonthlyPayment =
        calculateMonthlyPrincipalAndInterest b cr t ∧
    (results b cr nr t cc).newMonthlyPayment =
        calculateMonthlyPrincipalAndInterest b nr t ∧
    (results b cr nr t cc).monthlySavings =
        calculateMonthlyPrincipalAndInterest b cr t -
          calculateMonthlyPrincipalAndInterest b nr t ∧
    (0 < (results b cr nr t cc).monthlySavings →
      (results b cr nr t cc).breakEvenMonths =
        some ⌈clampNonNegative cc / (results b cr nr t cc).monthlySavings⌉) ∧
    ((results b cr nr t cc).monthlySavings ≤ 0 →
      (results b cr nr t cc).breakEvenMonths = none) := by
  refine ⟨rfl, rfl, rfl, ?_, ?_⟩
  · intro h
    show (if 0 < (results b cr nr t cc).monthlySavings then _ else _) = _
    rw [if_pos h]
    rfl
  · intro h
    show (if 0 < (results b cr nr t cc).monthlySavings then _ else _) = _
    rw [if_neg (not_lt.mpr h)]

/-- Witness for `refinance_break_even`: equal old and new rates give zero
savings, hence the sentinel. -/
theorem refinance_break_even_witness :
    (results (JsNum.fin 320000) (JsNum.fin 6.5) (JsNum.fin 6.5) (JsNum.fin 30)
        (JsNum.fin 6000)).monthlySavings ≤ 0 ∧
    (results (JsNum.fin 320000) (JsNum.fin 6.5) (JsNum.fin 6.5) (JsNum.fin 30)
        (JsNum.fin 6000)).breakEvenMonths = none :=
  ⟨le_of_eq (sub_self _),
    (refinance_break_even (JsNum.fin 320000) (JsNum.fin 6.5) (JsNum.fin 6.5)
        (JsNum.fin 30) (JsNum.fin 6000)).2.2.2.2
      (le_of_eq (sub_self _))⟩

end RefinanceCalculator

namespace ReverseMortgageCalculator

/-- `clampNonNegative` from `ReverseMortgageCalculator.tsx` (an identical
per-file copy). -/
def clampNonNegative : JsNum → ℚ
  | .fin x => max 0 x
  | _ => 0

/-- `clamp` from `ReverseMortgageCalculator.tsx`:
`!Number.isFinite(n) ? min : Math.min(max, Math.max(min, n))` (the source
parameter names `min`/`max` are `lo`/`hi` here to avoid shadowing). -/
def clamp (n : JsNum) (lo hi : ℚ) : ℚ :=
  match n with
  | .fin x => min hi (max lo x)
  | _ => lo

/-- `estimatedAvailabilityPct` from `ReverseMortgageCalculator.tsx`
(lines 23-45): per-band linear interpolation of the availability
percentage over the age clamped to `[0, 120]`. -/
def estimatedAvailabilityPct (age : JsNum) : ℚ :=
  let a := clamp age 0 120
  if a < 62 then 0
  else if a ≤ 69 then
    let t := (a - 62) / (69 - 62)
    0.35 + t * (0.4 - 0.35)
  else if a ≤ 79 then
    let t := (a - 70) / (79 - 70)
    0.45 + t * (0.5 - 0.45)
  else
    let capped := min a 95
    let t := (capped - 80) / (95 - 80)
    0.55 + t * (0.6 - 0.55)

/-- The outputs computed by the `useMemo` block of
`ReverseMortgageCalculator` (lines 129-141). -/
structure Results where
  availabilityPct : ℚ
  grossPrincipalLimit : ℚ
  netPrincipalLimit : ℚ
  ageEligible : Bool
deriving DecidableEq

/-- The `useMemo` computation of `ReverseMortgageCalculator`
(lines 129-141). -/
def results (youngestBorrowerAge homeValue currentMortgageBalance : JsNum) : Results :=
  let age := clampNonNegative youngestBorrowerAge
  let eligible := decide (62 ≤ age)
  let pct := estimatedAvailabilityPct (.fin age)
  let gross := clampNonNegative homeValue * pct
  let net := max 0 (gross - clampNonNegative currentMortgageBalance)
  ⟨pct, gross, net, eligible⟩

theorem rm_clampNonNegative_nonneg (x : JsNum) : 0 ≤ clampNonNegative x := by
  cases x with
  | fin q => exact le_max_left 0 q
  | posInf => exact le_refl 0
  | negInf => exact le_refl 0
  | nan => exact le_refl 0

/-- C3: the availability-percentage spot values (including the preserved
69-to-70 discontinuity and the age-95 cap), and: for every age below 62 the
gross and net principal limits are 0 regardless of home value and mortgage
balance. -/
theorem reverse_availability_spots_and_gate :
    estimatedAvailabilityPct (JsNum.fin 61) = 0 ∧
    estimatedAvailabilityPct (JsNum.fin 62) = 0.35 ∧
    estimatedAvailabilityPct (JsNum.fin 69) = 0.40 ∧
    estimatedAvailabilityPct (JsNum.fin 70) = 0.45 ∧
    estimatedAvailabilityPct (JsNum.fin 95) = 0.60 ∧
    estimatedAvailabilityPct (JsNum.fin 150) = 0.60 ∧
    ∀ age : ℚ, age < 62 → ∀ hv mb : JsNum,
      (results (JsNum.fin age) hv mb).grossPrincipalLimit = 0 ∧
        (results (JsNum.fin age) hv mb).netPrincipalLimit = 0 := by
  refine ⟨?_, ?_, ?_, ?_, ?_, ?_, ?_⟩
  · norm_num [estimatedAvailabilityPct, clamp]
  · norm_num [estimatedAvailabilityPct, clamp]
  · norm_num [estimatedAvailabilityPct, clamp]
  · norm_num [estimatedAvailabilityPct, clamp]
  · norm_num [estimatedAvailabilityPct, clamp]
  · norm_num [estimatedAvailabilityPct, clamp]
  · intro age hage hv mb
    have hclamp : clampNonNegative (JsNum.fin age) = max 0 age := rfl
    have hlt : max 0 age < 62 := max_lt (by norm_num) hage
    have hpct : estimatedAvailabilityPct (JsNum.fin (max 0 age)) = 0 := by
      show (if clamp (JsNum.fin (max 0 age)) 0 120 < 62 then (0 : ℚ) else _) = 0
      have hc : clamp (JsNum.fin (max 0 age)) 0 120 = max 0 age := by
        show min 120 (max 0 (max 0 age)) = max 0 age
        rw [← max_assoc, max_self]
        exact min_eq_right (by linarith)
      rw [hc, if_pos hlt]
    have hgross : (results (JsNum.fin age) hv mb).grossPrincipalLimit = 0 := by
      show clampNonNegative hv * estimatedAvailabilityPct (.fin (clampNonNegative (JsNum.fin age))) = 0
      rw [hclamp, hpct, mul_zero]
    refine ⟨hgross, ?_⟩
    show max 0 ((results (JsNum.fin age) hv mb).grossPrincipalLimit -
      clampNonNegative mb) = 0
    rw [hgross, zero_sub]
    exact max_eq_left (neg_nonpos.mpr (rm_clampNonNegative_nonneg mb))

/-- Witness for `reverse_availability_spots_and_gate`: a 30-year-old
borrower gets zero gross and net limits on a $500k home. -/
theorem reverse_availability_spots_and_gate_witness :
    (30 : ℚ) < 62 ∧
    (results (JsNum.fin 30) (JsNum.fin 500000) (JsNum.fin 150000)).grossPrincipalLimit = 0 ∧
    (results (JsNum.fin 30) (JsNum.fin 500000) (JsNum.fin 150000)).netPrincipalLimit = 0 :=
  ⟨by norm_num,
    reverse_availability_spots_and_gate.2.2.2.2.2.2 30 (by norm_num)
      (JsNum.fin 500000) (JsNum.fin 150000)⟩

end ReverseMortgageCalculator

namespace RateBuydownCalculator

/-- `clampNonNegative` from `src/components/RateBuydownCalculator.tsx` (an
identical per-file copy). -/
def clampNonNegative : JsNum → ℚ
  | .fin x => max 0 x
  | _ => 0

/-- `calculateMonthlyPrincipalAndInterest` from
`src/components/RateBuydownCalculator.tsx` (lines 18-34), the file's own
copy. -/
def calculateMonthlyPrincipalAndInterest
    (principal annualRatePercent termYears : JsNum) : ℚ :=
  let P := clampNonNegative principal
  let years := clampNonNegative termYears
  let n : ℤ := round (years * 12)
  if P = 0 ∨ n = 0 then 0
  else
    let annualRate := clampNonNegative annualRatePercent / 100
    let r := annualRate / 12
    if r = 0 then P / (n : ℚ)
    else
      let pow := (1 + r) ^ n.toNat
      P * r * pow / (pow - 1)

/-- The `BuydownType` union from `RateBuydownCalculator.tsx`
(`'none' | 'temporary-2-1'`). -/
inductive BuydownType where
  | none
  | temporary21
deriving DecidableEq

/-- `ScheduleRow` from `RateBuydownCalculator.tsx` (lines 115-122); the
optional TS fields `savingsMonthly?`/`savingsAnnual?` are `Option ℚ`, with
`Option.none` for a genuinely absent field. -/
structure ScheduleRow where
  periodLabel : String
  ratePercent : ℚ
  monthlyPayment : ℚ
  annualPayment : ℚ
  savingsMonthly : Option ℚ
  savingsAnnual : Option ℚ
deriving DecidableEq

/-- `TERM_YEARS` constant of the `RateBuydownCalculator` component. -/
def TERM_YEARS : ℚ := 30

/-- The `useMemo` computation of `RateBuydownCalculator` (lines 131-177):
the base payment together with the schedule rows.  Inputs are the component
state, which the input handlers keep finite. -/
def buildSchedule (buydownType : BuydownType) (loanAmount baseRatePercent : ℚ) :
    ℚ × List ScheduleRow :=
  let basePayment :=
    calculateMonthlyPrincipalAndInterest (.fin loanAmount) (.fin baseRatePercent) (.fin TERM_YEARS)
  match buydownType with
  | .temporary21 =>
    let y1Rate := max 0 (baseRatePercent - 2)
    let y2Rate := max 0 (baseRatePercent - 1)
    let y3Rate := max 0 baseRatePercent
    let y1Pay :=
      calculateMonthlyPrincipalAndInterest (.fin loanAmount) (.fin y1Rate) (.fin TERM_YEARS)
    let y2Pay :=
      calculateMonthlyPrincipalAndInterest (.fin loanAmount) (.fin y2Rate) (.fin TERM_YEARS)
    let y3Pay :=
      calculateMonthlyPrincipalAndInterest (.fin loanAmount) (.fin y3Rate) (.fin TERM_YEARS)
    (basePayment,
      [⟨"Year 1", y1Rate, y1Pay, y1Pay * 12,
          some (basePayment - y1Pay), some ((basePayment - y1Pay) * 12)⟩,
        ⟨"Year 2", y2Rate, y2Pay, y2Pay * 12,
          some (basePayment - y2Pay), some ((basePayment - y2Pay) * 12)⟩,
        ⟨"Year 3–30", y3Rate, y3Pay, y3Pay * 12, Option.none, Option.none⟩])
  | .none =>
    (basePayment,
      [⟨"Year 1–30", max 0 baseRatePercent, basePayment, basePayment * 12,
          Option.none, Option.none⟩])

/-- C7: in `temporary-2-1` mode the schedule has exactly three rows at the
(floored, never negative) rates `max(0,base-2)`, `max(0,base-1)`,
`max(0,base)`; rows 1 and 2 carry `savingsMonthly = basePayment - periodPayment`
and `savingsAnnual = 12 *` that, row 3's savings fields are absent
(`Option.none`, the TS `undefined`); in `none` mode the schedule is one row
spanning the full term (`"Year 1–30"`) with absent savings fields. -/
theorem buydown_schedule_shape (loanAmount baseRatePercent : ℚ) :
    ((buildSchedule .temporary21 loanAmount baseRatePercent).2.length = 3 ∧
      (∀ row ∈ (buildSchedule .temporary21 loanAmount baseRatePercent).2,
        0 ≤ row.ratePercent) ∧
      ((buildSchedule .temporary21 loanAmount baseRatePercent).2[0]?).map
          ScheduleRow.ratePercent = some (max 0 (baseRatePercent - 2)) ∧
      ((buildSchedule .temporary21 loanAmount baseRatePercent).2[1]?).map
          ScheduleRow.ratePercent = some (max 0 (baseRatePercent - 1)) ∧
      ((buildSchedule .temporary21 loanAmount baseRatePercent).2[2]?).map
          ScheduleRow.ratePercent = some (max 0 baseRatePercent) ∧
      (∀ row ∈ (buildSchedule .temporary21 loanAmount baseRatePercent).2.take 2,
        row.savingsMonthly =
            some ((buildSchedule .temporary21 loanAmount baseRatePercent).1 -
              row.monthlyPayment) ∧
          row.savingsAnnual =
            some (((buildSchedule .temporary21 loanAmount baseRatePercent).1 -
              row.monthlyPayment) * 12)) ∧
      ((buildSchedule .temporary21 loanAmount baseRatePercent).2[2]?).map
          ScheduleRow.savingsMonthly = some Option.none ∧
      ((buildSchedule .temporary21 loanAmount baseRatePercent).2[2]?).map
          ScheduleRow.savingsAnnual = some Option.none) ∧
    ((buildSchedule .none loanAmount baseRatePercent).2.length = 1 ∧
      ((buildSchedule .none loanAmount baseRatePercent).2[0]?) =
        some ⟨"Year 1–30", max 0 baseRatePercent,
          (buildSchedule .none loanAmount baseRatePercent).1,
          (buildSchedule .none loanAmount baseRatePercent).1 * 12,
          Option.none, Option.none⟩) := by
  refine ⟨⟨rfl, ?_, rfl, rfl, rfl, ?_, rfl, rfl⟩, rfl, rfl⟩
  · intro row hrow
    simp only [buildSchedule, List.mem_cons, List.not_mem_nil, or_false] at hrow
    rcases hrow with h | h | h <;> rw [h] <;> exact le_max_left 0 _
  · intro row hrow
    simp only [buildSchedule, List.take_succ_cons, List.take_zero, List.mem_cons,
      List.not_mem_nil, or_false] at hrow
    rcases hrow with h | h <;> subst h <;> exact ⟨rfl, rfl⟩

theorem rb_payment_zero_principal (a t : JsNum) :
    calculateMonthlyPrincipalAndInterest (JsNum.fin 0) a t = 0 := by
  simp [calculateMonthlyPrincipalAndInterest, clampNonNegative]

/-- Witness for `buydown_schedule_shape`: on a zero loan at a 6.5% base rate
the year-1 row is concretely `⟨"Year 1", 4.5, 0, 0, some 0, some 0⟩`, and the
theorem instantiates to its rate and savings facts. -/
theorem buydown_schedule_shape_witness :
    ((buildSchedule .temporary21 0 6.5).2[0]?).map ScheduleRow.ratePercent =
        some (max 0 ((6.5 : ℚ) - 2)) ∧
    0 ≤ (⟨"Year 1", (9/2 : ℚ), 0, 0, some 0, some 0⟩ : ScheduleRow).ratePercent ∧
    (⟨"Year 1", (9/2 : ℚ), 0, 0, some 0, some 0⟩ : ScheduleRow).savingsMonthly =
      some ((buildSchedule .temporary21 0 (6.5 : ℚ)).1 -
        (⟨"Year 1", (9/2 : ℚ), 0, 0, some 0, some 0⟩ : ScheduleRow).monthlyPayment) := by
  have hrow : (⟨"Year 1", (9/2 : ℚ), 0, 0, some 0, some 0⟩ : ScheduleRow) ∈
      (buildSchedule .temporary21 0 6.5).2 := by
    norm_num [buildSchedule, rb_payment_zero_principal]
  have htake : (⟨"Year 1", (9/2 : ℚ), 0, 0, some 0, some 0⟩ : ScheduleRow) ∈
      (buildSchedule .temporary21 0 6.5).2.take 2 := by
    norm_num [buildSchedule, rb_payment_zero_principal, List.take_succ_cons, List.take_zero]
  exact ⟨(buydown_schedule_shape 0 6.5).1.2.2.1,
    (buydown_schedule_shape 0 6.5).1.2.1 _ hrow,
    ((buydown_schedule_shape 0 6.5).1.2.2.2.2.2.1 _ htake).1⟩

end RateBuydownCalculator

namespace RentVsBuyCalculator

/-- `clampNonNegative` from `src/components/RentVsBuyCalculator.tsx` (an
identical per-file copy). -/
def clampNonNegative : JsNum → ℚ
  | .fin x => max 0 x
  | _ => 0

/-- `calculateMonthlyPayment` from `src/components/RentVsBuyCalculator.tsx`
(lines 29-41), this file's copy of the amortization helper. -/
def calculateMonthlyPayment (principal annualRatePercent termYears : JsNum) : ℚ :=
  let P := clampNonNegative principal
  let years := clampNonNegative termYears
  let n : ℤ := round (years * 12)
  if P = 0 ∨ n = 0 then 0
  else
    let annualRate := clampNonNegative annualRatePercent / 100
    let r := annualRate / 12
    if r = 0 then P / (n : ℚ)
    else
      let pow := (1 + r) ^ n.toNat
      P * r * pow / (pow - 1)

/-- `DataPoint` from `RentVsBuyCalculator.tsx` (lines 120-124). -/
structure DataPoint where
  year : ℕ
  rentCost : ℚ
  buyNetCost : ℚ
deriving DecidableEq

/-- The fixed assumptions of the component (lines 136-140). -/
def ASSUMED_DOWN_PCT : ℚ := 0.2

def ASSUMED_RATE_PCT : ℚ := 6.5

def ASSUMED_TERM_YEARS : ℚ := 30

def ASSUMED_TAX_PCT : ℚ := 0.01

def ASSUMED_MAINT_PCT : ℚ := 0.01

/-- The fixed monthly mortgage rate `r = (ASSUMED_RATE_PCT / 100) / 12`
(line 160). -/
def mortgageMonthlyRate : ℚ := ASSUMED_RATE_PCT / 100 / 12

/-- The per-year independent parameters of the simulation loop. -/
structure Params where
  price0 : ℚ
  rent0 : ℚ
  rentInfl : ℚ
  appr : ℚ
  downPayment : ℚ
  monthlyMortgagePayment : ℚ

/-- The state carried from year to year by the simulation loop
(lines 161-167). -/
structure SimState where
  remainingBalance : ℚ
  cumulativePrincipalPaid : ℚ
  cumulativeRentCost : ℚ
  cumulativeMortgagePaid : ℚ
  cumulativeTaxPaid : ℚ
  cumulativeMaintenancePaid : ℚ

/-- One iteration of the inner month loop (lines 181-187), acting on the
pair (remainingBalance, cumulativePrincipalPaid).  The loop's `break` on a
non-positive balance is equivalent to this conditional step, because once
the balance is non-positive it can never change again. -/
def monthStep (payment : ℚ) (s : ℚ × ℚ) : ℚ × ℚ :=
  if s.1 ≤ 0 then s
  else
    let interestPayment := s.1 * mortgageMonthlyRate
    let principalPayment := max 0 (payment - interestPayment)
    (max 0 (s.1 - principalPayment), s.2 + principalPayment)

/-- One iteration of the outer year loop (lines 172-217), returning the new
state and the `DataPoint` pushed for this year. -/
def yearStep (p : Params) (year : ℕ) (s : SimState) : SimState × DataPoint :=
  let yearHomeValue := p.price0 * (1 + p.appr) ^ (year - 1)
  let yearMonthlyRent := p.rent0 * (1 + p.rentInfl) ^ (year - 1)
  let cumulativeRentCost := s.cumulativeRentCost + yearMonthlyRent * 12
  let amort := (monthStep p.monthlyMortgagePayment)^[12]
    (s.remainingBalance, s.cumulativePrincipalPaid)
  let cumulativeMortgagePaid := s.cumulativeMortgagePaid + p.monthlyMortgagePayment * 12
  let cumulativeTaxPaid := s.cumulativeTaxPaid + yearHomeValue * ASSUMED_TAX_PCT
  let cumulativeMaintenancePaid :=
    s.cumulativeMaintenancePaid + yearHomeValue * ASSUMED_MAINT_PCT
  let equity := p.downPayment + amort.2 + max 0 (yearHomeValue - p.price0)
  let cashOut :=
    p.downPayment + cumulativeMortgagePaid + cumulativeTaxPaid + cumulativeMaintenancePaid
  let netBuyCost := max 0 (cashOut - equity)
  (⟨amort.1, amort.2, cumulativeRentCost, cumulativeMortgagePaid, cumulativeTaxPaid,
      cumulativeMaintenancePaid⟩,
    ⟨year, cumulativeRentCost, netBuyCost⟩)

/-- The year loop of the `useMemo` block (lines 170-217), carrying the
`firstCrossover` variable exactly as the code does: it is set to the current
year when still `null` and this year's net buy cost does not exceed the
cumulative rent cost. -/
def loop (p : Params) : ℕ → ℕ → SimState → Option ℕ → List DataPoint × Option ℕ
  | _, 0, _, firstCrossover => ([], firstCrossover)
  | year, k + 1, s, firstCrossover =>
    let step := yearStep p year s
    let fc :=
      if firstCrossover = Option.none ∧ step.2.buyNetCost ≤ step.2.rentCost then some year
      else firstCrossover
    let rest := loop p (year + 1) k step.1 fc
    (step.2 :: rest.1, rest.2)

/-- The `useMemo` computation of `RentVsBuyCalculator` (lines 142-231),
producing the projection points and the crossover year.  `durationYears` is
the component state, kept finite by the input handler, and is used unclamped
in `Math.round` exactly as in the code; the chart summary fields derived
from the same points are presentation-only and not modelled. -/
def projection (targetHomePrice currentMonthlyRent rentInflationPct
    homeAppreciationPct : JsNum) (durationYears : ℚ) : List DataPoint × Option ℕ :=
  let years := (min 50 (max 1 (round durationYears))).toNat
  let price0 := clampNonNegative targetHomePrice
  let rent0 := clampNonNegative currentMonthlyRent
  let rentInfl := clampNonNegative rentInflationPct / 100
  let appr := clampNonNegative homeAppreciationPct / 100
  let downPayment := price0 * ASSUMED_DOWN_PCT
  let loanAmount := max 0 (price0 - downPayment)
  let monthlyMortgagePayment :=
    calculateMonthlyPayment (.fin loanAmount) (.fin ASSUMED_RATE_PCT) (.fin ASSUMED_TERM_YEARS)
  loop ⟨price0, rent0, rentInfl, appr, downPayment, monthlyMortgagePayment⟩ 1 years
    ⟨loanAmount, 0, 0, 0, 0, 0⟩ Option.none

theorem loop_length (p : Params) :
    ∀ (k year : ℕ) (s : SimState) (fc : Option ℕ),
      (loop p year k s fc).1.length = k := by
  intro k
  induction k with
  | zero => intro year s fc; rfl
  | succ n ih =>
    intro year s fc
    show ((yearStep p year s).2 :: _).length = n + 1
    rw [List.length_cons, ih]

theorem loop_years (p : Params) :
    ∀ (k year : ℕ) (s : SimState) (fc : Option ℕ),
      (loop p year k s fc).1.map DataPoint.year = List.range' year k := by
  intro k
  induction k with
  | zero => intro year s fc; rfl
  | succ n ih =>
    intro year s fc
    show ((yearStep p year s).2 :: _).map DataPoint.year = List.range' year (n + 1)
    rw [List.map_cons, List.range'_succ, ih]
    rfl

theorem loop_year_lb (p : Params) :
    ∀ (k year : ℕ) (s : SimState) (fc : Option ℕ),
      ∀ pt ∈ (loop p year k s fc).1, year ≤ pt.year := by
  intro k year s fc pt hmem
  have h : pt.year ∈ (loop p year k s fc).1.map DataPoint.year :=
    List.mem_map_of_mem DataPoint.year hmem
  rw [loop_years] at h
  exact (List.mem_range'_1.mp h).1

theorem loop_fc_some (p : Params) :
    ∀ (k year : ℕ) (s : SimState) (z : ℕ),
      (loop p year k s (some z)).2 = some z := by
  intro k
  induction k with
  | zero => intro year s z; rfl
  | succ n ih =>
    intro year s z
    show (loop p (year + 1) n (yearStep p year s).1
      (if some z = Option.none ∧ _ then some year else some z)).2 = some z
    rw [if_neg (by simp), ih]

theorem loop_crossover (p : Params) :
    ∀ (k year : ℕ) (s : SimState),
      ((loop p year k s Option.none).2 = Option.none →
        ∀ pt ∈ (loop p year k s Option.none).1, ¬ pt.buyNetCost ≤ pt.rentCost) ∧
      (∀ y : ℕ, (loop p year k s Option.none).2 = some y →
        ∃ pt ∈ (loop p year k s Option.none).1,
          pt.year = y ∧ pt.buyNetCost ≤ pt.rentCost ∧
            ∀ pt' ∈ (loop p year k s Option.none).1, pt'.year < y →
              ¬ pt'.buyNetCost ≤ pt'.rentCost) := by
  intro k
  induction k with
  | zero =>
    intro year s
    constructor
    · intro _ pt hpt
      simp [loop] at hpt
    · intro y hy
      simp [loop] at hy
  | succ n ih =>
    intro year s
    by_cases hc : (yearStep p year s).2.buyNetCost ≤ (yearStep p year s).2.rentCost
    · have hfc : (if (Option.none : Option ℕ) = Option.none ∧
          (yearStep p year s).2.buyNetCost ≤ (yearStep p year s).2.rentCost then some year
          else Option.none) = some year := if_pos ⟨rfl, hc⟩
      have hfst : (loop p year (n + 1) s Option.none).1 =
          (yearStep p year s).2 ::
            (loop p (year + 1) n (yearStep p year s).1 (some year)).1 := by
        show (yearStep p year s).2 :: (loop p (year + 1) n (yearStep p year s).1 _).1 = _
        rw [hfc]
      have hsnd : (loop p year (n + 1) s Option.none).2 = some year := by
        show (loop p (year + 1) n (yearStep p year s).1 _).2 = some year
        rw [hfc, loop_fc_some]
      constructor
      · intro h
        rw [hsnd] at h
        simp at h
      · intro y hy
        rw [hsnd, Option.some_inj] at hy
        refine ⟨(yearStep p year s).2, ?_, ?_, hc, ?_⟩
        · rw [hfst]
          exact List.mem_cons_self _ _
        · rw [← hy]
          rfl
        · intro pt' hpt' hlt
          rw [hfst] at hpt'
          rcases List.mem_cons.mp hpt' with h' | h'
          · subst h'
            rw [← hy] at hlt
            exact absurd hlt (lt_irrefl _)
          · have hlb := loop_year_lb p n (year + 1) (yearStep p year s).1 (some year) pt' h'
            rw [← hy] at hlt
            omega
    · have hfc : (if (Option.none : Option ℕ) = Option.none ∧
          (yearStep p year s).2.buyNetCost ≤ (yearStep p year s).2.rentCost then some year
          else Option.none) = Option.none := if_neg (by simp [hc])
      have hfst : (loop p year (n + 1) s Option.none).1 =
          (yearStep p year s).2 ::
            (loop p (year + 1) n (yearStep p year s).1 Option.none).1 := by
        show (yearStep p year s).2 :: (loop p (year + 1) n (yearStep p year s).1 _).1 = _
        rw [hfc]
      have hsnd : (loop p year (n + 1) s Option.none).2 =
          (loop p (year + 1) n (yearStep p year s).1 Option.none).2 := by
        show (loop p (year + 1) n (yearStep p year s).1 _).2 = _
        rw [hfc]
      obtain ⟨ih1, ih2⟩ := ih (year + 1) (yearStep p year s).1
      constructor
      · intro h pt hpt
        rw [hsnd] at h
        rw [hfst] at hpt
        rcases List.mem_cons.mp hpt with h' | h'
        · subst h'
          exact hc
        · exact ih1 h pt h'
      · intro y hy
        rw [hsnd] at hy
        obtain ⟨pt0, hmem0, hy0, hcond0, hmin0⟩ := ih2 y hy
        refine ⟨pt0, ?_, hy0, hcond0, ?_⟩
        · rw [hfst]
          exact List.mem_cons_of_mem _ hmem0
        · intro pt' hpt' hlt
          rw [hfst] at hpt'
          rcases List.mem_cons.mp hpt' with h' | h'
          · subst h'
            exact hc
          · exact hmin0 pt' h' hlt

/-- C4: the projection has exactly `clamp(round(durationYears), 1, 50)`
points whose `year` fields are exactly `1, 2, ..., N` in increasing order
(`List.range' 1 N`), and the crossover year, when not `null`, is the
smallest year whose net buy cost is at most that year's cumulative rent
cost, with no earlier year satisfying the condition; if no year satisfies
it, the crossover is `null`. -/
theorem rentvsbuy_projection_shape (thp cmr rip hap : JsNum) (d : ℚ) :
    (projection thp cmr rip hap d).1.length = (min 50 (max 1 (round d))).toNat ∧
    (projection thp cmr rip hap d).1.map DataPoint.year =
      List.range' 1 ((min 50 (max 1 (round d))).toNat) ∧
    ((projection thp cmr rip hap d).2 = Option.none →
      ∀ pt ∈ (projection thp cmr rip hap d).1, ¬ pt.buyNetCost ≤ pt.rentCost) ∧
    (∀ y : ℕ, (projection thp cmr rip hap d).2 = some y →
      ∃ pt ∈ (projection thp cmr rip hap d).1,
        pt.year = y ∧ pt.buyNetCost ≤ pt.rentCost ∧
          ∀ pt' ∈ (projection thp cmr rip hap d).1, pt'.year < y →
            ¬ pt'.buyNetCost ≤ pt'.rentCost) :=
  ⟨loop_length _ _ _ _ _, loop_years _ _ _ _ _,
    (loop_crossover _ _ _ _).1, (loop_crossover _ _ _ _).2⟩

theorem loop_succ_snd (p : Params) (year k : ℕ) (s : SimState) (fc : Option ℕ) :
    (loop p year (k + 1) s fc).2 =
      (loop p (year + 1) k (yearStep p year s).1
        (if fc = Option.none ∧
            (yearStep p year s).2.buyNetCost ≤ (yearStep p year s).2.rentCost
          then some year else fc)).2 := rfl

theorem rvb_monthStep_zero_fixed : monthStep 0 ((0 : ℚ), (0 : ℚ)) = ((0 : ℚ), (0 : ℚ)) := by
  simp [monthStep]

theorem rvb_yearStep_zero (year : ℕ) :
    yearStep ⟨0, 0, 0, 0, 0, 0⟩ year ⟨0, 0, 0, 0, 0, 0⟩ =
      (⟨0, 0, 0, 0, 0, 0⟩, ⟨year, 0, 0⟩) := by
  have hit : (monthStep 0)^[12] ((0 : ℚ), (0 : ℚ)) = ((0 : ℚ), (0 : ℚ)) :=
    Function.iterate_fixed rvb_monthStep_zero_fixed 12
  simp only [yearStep]
  rw [hit]
  norm_num [ASSUMED_TAX_PCT, ASSUMED_MAINT_PCT]

theorem rvb_projection_zero_crossover :
    (projection (JsNum.fin 0) (JsNum.fin 0) (JsNum.fin 0) (JsNum.fin 0) 2).2 = some 1 := by
  have hM : calculateMonthlyPayment (JsNum.fin 0) (JsNum.fin ASSUMED_RATE_PCT)
      (JsNum.fin ASSUMED_TERM_YEARS) = 0 := by
    simp [calculateMonthlyPayment, clampNonNegative]
  have hp : projection (JsNum.fin 0) (JsNum.fin 0) (JsNum.fin 0) (JsNum.fin 0) 2 =
      loop ⟨0, 0, 0, 0, 0, 0⟩ 1 2 ⟨0, 0, 0, 0, 0, 0⟩ Option.none := by
    simp only [projection]
    norm_num [clampNonNegative, ASSUMED_DOWN_PCT, hM]
    rfl
  rw [hp, show (2 : ℕ) = 1 + 1 from rfl, loop_succ_snd]
  simp [rvb_yearStep_zero, loop_fc_some]

/-- Witness for `rentvsbuy_projection_shape`: with all-zero inputs over two
years the crossover is year 1, and the theorem instantiates to the
first-crossing property there. -/
theorem rentvsbuy_projection_shape_witness :
    (projection (JsNum.fin 0) (JsNum.fin 0) (JsNum.fin 0) (JsNum.fin 0) 2).2 = some 1 ∧
    ∃ pt ∈ (projection (JsNum.fin 0) (JsNum.fin 0) (JsNum.fin 0) (JsNum.fin 0) 2).1,
      pt.year = 1 ∧ pt.buyNetCost ≤ pt.rentCost ∧
        ∀ pt' ∈ (projection (JsNum.fin 0) (JsNum.fin 0) (JsNum.fin 0) (JsNum.fin 0) 2).1,
          pt'.year < 1 → ¬ pt'.buyNetCost ≤ pt'.rentCost :=
  ⟨rvb_projection_zero_crossover,
    (rentvsbuy_projection_shape (JsNum.fin 0) (JsNum.fin 0) (JsNum.fin 0) (JsNum.fin 0)
        2).2.2.2 1 rvb_projection_zero_crossover⟩

end RentVsBuyCalculator

/-- C9: the five per-file copies of the amortization payment function (in
the Purchase, Cash-Out, Rate-Buydown and Refinance calculators, and
`calculateMonthlyPayment` in the Rent-vs-Buy calculator) are extensionally
equal: every calculator effectively calls one shared amortization
function. -/
theorem amortization_copies_extensionally_equal (p a t : JsNum) :
    PurchaseCalculator.calculateMonthlyPrincipalAndInterest p a t =
        CashOutCalculator.calculateMonthlyPrincipalAndInterest p a t ∧
    PurchaseCalculator.calculateMonthlyPrincipalAndInterest p a t =
        RateBuydownCalculator.calculateMonthlyPrincipalAndInterest p a t ∧
    PurchaseCalculator.calculateMonthlyPrincipalAndInterest p a t =
        RefinanceCalculator.calculateMonthlyPrincipalAndInterest p a t ∧
    PurchaseCalculator.calculateMonthlyPrincipalAndInterest p a t =
        RentVsBuyCalculator.calculateMonthlyPayment p a t :=
  ⟨rfl, rfl, rfl, rfl⟩
